import Mathlib

/-!
Shallow embedding of `polyfactory/fields.py`: the deferred-value field
descriptor protocol (`Use`, `PostGenerated`, `Fixture`, and the sentinel
markers `Require` and `Ignore`).

Modelling conventions:
* Python values are represented by the opaque type `Val`; exceptions by
  `Err` (the core itself only ever constructs `Err.parameterError`).
* A Python callable that may raise is a Lean function returning
  `Except Err Val`.
* Each `to_value` method returns a `ResolveResult`: the post-call state of
  `self` (no method body assigns to any slot, so the state comes back
  unchanged), the returned-or-raised result, and the list of external
  calls (`CallEvent`s) the method performed, in order.  `__init__` is
  modelled the same way, returning the constructed object and the (empty)
  list of calls it performs.
* The process-wide registry `FactoryFixture.factory_class_map` is passed
  to `Fixture.to_value` explicitly as a lookup function `Registry`; the
  key is the identity of the stored fixture callable (`FixtureId`).
* Python truthiness of `self.size` (an `Optional[int]`): `None` and `0`
  are falsy, every other integer (negative ones included) is truthy; the
  `match`/`if` in `Fixture.to_value` below unfolds exactly that test.
-/

namespace Polyfactory

/-- Opaque runtime values produced by builders and callables. -/
inductive Val where
  | obj : Nat → Val
  | strv : String → Val
  deriving DecidableEq, Repr

/-- Python exceptions.  `parameterError` models `polyfactory.exceptions.ParameterError`;
`userError` stands for any exception raised inside a wrapped callable or a
delegated builder. -/
inductive Err where
  | parameterError : String → Err
  | userError : Nat → Err
  deriving DecidableEq, Repr

/-- Positional arguments of a call. -/
abbrev Args := List Val

/-- Keyword arguments of a call (insertion-ordered mapping). -/
abbrev Kwargs := List (String × Val)

/-- The mapping of already-resolved field name → value handed to a
post-generation callback. -/
abbrev ValMap := List (String × Val)

/-- A wrapped Python callable usable by `Use`: takes the stored args and
kwargs, returns a value or raises. -/
abbrev Fn := Args → Kwargs → Except Err Val

/-- A post-generation callback: receives the field name and the resolved
values, then the stored args and kwargs. -/
abbrev PostFn := String → ValMap → Args → Kwargs → Except Err Val

/-- `class WrappedCallable(TypedDict): value: Callable` — the one-slot dict
each descriptor wraps its callable in. -/
structure WrappedCallable (α : Type) where
  value : α
  deriving DecidableEq, Repr

/-- The identity of a factory callable, as used for keys of
`FactoryFixture.factory_class_map`. -/
abbrev FixtureId := Nat

/-- The interface of a registered factory: `build(**kwargs)` and
`batch(size, **kwargs)`, each of which may raise. -/
structure Factory where
  build : Kwargs → Except Err Val
  batch : Int → Kwargs → Except Err Val

/-- The state of `FactoryFixture.factory_class_map` at resolution time:
`.get` returns the registered factory or `None`. -/
abbrev Registry := FixtureId → Option Factory

/-- One external call performed during `__init__` or `to_value`. -/
inductive CallEvent where
  | callFn : Args → Kwargs → CallEvent
  | callPostFn : String → ValMap → Args → Kwargs → CallEvent
  | callBuild : Kwargs → CallEvent
  | callBatch : Int → Kwargs → CallEvent
  deriving DecidableEq, Repr

/-- The outcome of a `to_value` call on a descriptor of type `σ`: the
post-call state of `self`, the value returned (or error raised), and the
external calls made, in order. -/
structure ResolveResult (σ : Type) where
  state : σ
  result : Except Err Val
  events : List CallEvent

/-- `class Require` — sentinel marking a required build-time kwarg. -/
structure Require where
  deriving DecidableEq, Repr

/-- `class Ignore` — sentinel marking an ignored attribute. -/
structure Ignore where
  deriving DecidableEq, Repr

/-- `class Use` — `__slots__ = ("fn", "kwargs", "args")`. -/
structure Use where
  fn : WrappedCallable Fn
  kwargs : Kwargs
  args : Args

/-- `Use.__init__`: `self.fn = {"value": fn}; self.kwargs = kwargs;
self.args = args` — returns the constructed object and the (empty) list of
calls performed during construction. -/
def Use.init (fn : Fn) (args : Args) (kwargs : Kwargs) : Use × List CallEvent :=
  ({ fn := { value := fn }, kwargs := kwargs, args := args }, [])

/-- `Use.to_value`: `return self.fn["value"](*self.args, **self.kwargs)`. -/
def Use.to_value (u : Use) : ResolveResult Use :=
  { state := u
    result := u.fn.value u.args u.kwargs
    events := [CallEvent.callFn u.args u.kwargs] }

/-- Two successive `to_value` calls on the same descriptor: the combined
list of external calls performed (the second call runs on the post-state
of the first). -/
def Use.resolveTwice (u : Use) : List CallEvent :=
  (u.to_value).events ++ ((u.to_value).state.to_value).events

/-- `class PostGenerated` — `__slots__ = ("fn", "kwargs", "args")`. -/
structure PostGenerated where
  fn : WrappedCallable PostFn
  kwargs : Kwargs
  args : Args

/-- `PostGenerated.__init__`: same storage as `Use.__init__`. -/
def PostGenerated.init (fn : PostFn) (args : Args) (kwargs : Kwargs) :
    PostGenerated × List CallEvent :=
  ({ fn := { value := fn }, kwargs := kwargs, args := args }, [])

/-- `PostGenerated.to_value`:
`return self.fn["value"](name, values, *self.args, **self.kwargs)`. -/
def PostGenerated.to_value (pg : PostGenerated) (name : String) (values : ValMap) :
    ResolveResult PostGenerated :=
  { state := pg
    result := pg.fn.value name values pg.args pg.kwargs
    events := [CallEvent.callPostFn name values pg.args pg.kwargs] }

/-- `class Fixture` — `__slots__ = ("fixture", "size", "kwargs")`. -/
structure Fixture where
  fixture : WrappedCallable FixtureId
  size : Option Int
  kwargs : Kwargs
  deriving DecidableEq, Repr

/-- `Fixture.__init__`: `self.fixture = {"value": fixture}; self.size = size;
self.kwargs = kwargs`. -/
def Fixture.init (fixture : FixtureId) (size : Option Int) (kwargs : Kwargs) :
    Fixture × List CallEvent :=
  ({ fixture := { value := fixture }, size := size, kwargs := kwargs }, [])

/-- The message of the `ParameterError` raised by `Fixture.to_value`. -/
def registrationErrorMsg : String :=
  "fixture has not been registered using the register_factory decorator"

/-- `Fixture.to_value`:
```
if factory := FactoryFixture.factory_class_map.get(self.fixture["value"]):
    if self.size:
        return factory.batch(self.size, **self.kwargs)
    return factory.build(**self.kwargs)
raise ParameterError("fixture has not been registered using the register_factory decorator")
```
The outer walrus test is a presence test (`.get` yields `None` when absent;
a factory class is always truthy); the inner `if self.size:` is Python
truthiness on an `Optional[int]`, unfolded below into a `match` on the
option and a `≠ 0` test on the integer. -/
def Fixture.to_value (reg : Registry) (f : Fixture) : ResolveResult Fixture :=
  match reg f.fixture.value with
  | some factory =>
    match f.size with
    | some n =>
      if n ≠ 0 then
        { state := f, result := factory.batch n f.kwargs
          events := [CallEvent.callBatch n f.kwargs] }
      else
        { state := f, result := factory.build f.kwargs
          events := [CallEvent.callBuild f.kwargs] }
    | none =>
      { state := f, result := factory.build f.kwargs
        events := [CallEvent.callBuild f.kwargs] }
  | none =>
    { state := f
      result := Except.error (Err.parameterError registrationErrorMsg)
      events := [] }

/-- The single delegated call (`build` or `batch`) that `Fixture.to_value`
forwards to when the lookup succeeds, following the same truthiness test on
`size` as the source. -/
def delegatedCall (factory : Factory) (f : Fixture) : Except Err Val :=
  match f.size with
  | some n => if n ≠ 0 then factory.batch n f.kwargs else factory.build f.kwargs
  | none => factory.build f.kwargs

/-! Helper lemmas shared by several claim proofs. -/

/-- When the registry lookup succeeds, `Fixture.to_value` returns exactly the
result of the delegated `build`/`batch` call selected by the truthiness of
`size`. -/
theorem fixture_registered_result (reg : Registry) (fx : Fixture) (factory : Factory)
    (hreg : reg fx.fixture.value = some factory) :
    (Fixture.to_value reg fx).result = delegatedCall factory fx := by
  unfold Fixture.to_value delegatedCall
  rw [hreg]
  cases fx.size with
  | none => rfl
  | some n => by_cases h : n = 0 <;> simp [h]

/-- When the registry lookup succeeds, `Fixture.to_value` performs at least
one delegated call. -/
theorem fixture_registered_events_ne_nil (reg : Registry) (fx : Fixture) (factory : Factory)
    (hreg : reg fx.fixture.value = some factory) :
    (Fixture.to_value reg fx).events ≠ [] := by
  unfold Fixture.to_value
  rw [hreg]
  cases fx.size with
  | none => simp
  | some n => by_cases h : n = 0 <;> simp [h]

/-! Concrete instances used by witnesses. -/

/-- A sample factory whose `build`/`batch` succeed deterministically. -/
def sampleFactory : Factory where
  build := fun k => Except.ok (Val.obj k.length)
  batch := fun n k => Except.ok (Val.obj (n.toNat + k.length))

/-- A sample registry with exactly one registration, under identity `1`. -/
def sampleReg : Registry := fun i => if i = 1 then some sampleFactory else none

/-- A wrapped callable that always raises. -/
def errFn : Fn := fun _ _ => Except.error (Err.userError 7)

/-- A post-generation callback that always raises. -/
def errPostFn : PostFn := fun _ _ _ _ => Except.error (Err.userError 7)

/-- A factory whose `build` and `batch` always raise. -/
def errFactory : Factory where
  build := fun _ => Except.error (Err.userError 7)
  batch := fun _ _ => Except.error (Err.userError 7)

/-- A registry in which every identity is registered to `errFactory`. -/
def errReg : Registry := fun _ => some errFactory

/-! The claims. -/

/-- C1: for every `Fixture` whose stored identity is not a key of the
registry, `to_value` raises `ParameterError` and performs no `build` or
`batch` call (no partial result is produced). -/
theorem fixture_unregistered_raises (reg : Registry) (fx : Fixture)
    (h : reg fx.fixture.value = none) :
    (Fixture.to_value reg fx).result
        = Except.error (Err.parameterError registrationErrorMsg)
    ∧ (Fixture.to_value reg fx).events = [] := by
  unfold Fixture.to_value
  rw [h]
  exact ⟨rfl, rfl⟩

/-- Witness for C1 at a concrete unregistered fixture. -/
theorem fixture_unregistered_raises_witness :
    (Fixture.to_value (fun _ => none) (Fixture.init 0 none []).1).result
        = Except.error (Err.parameterError registrationErrorMsg)
    ∧ (Fixture.to_value (fun _ => none) (Fixture.init 0 none []).1).events = [] :=
  fixture_unregistered_raises (fun _ => none) (Fixture.init 0 none []).1 rfl

/-- C2: for every `Fixture` whose identity is registered and whose `size` is
a positive integer `n`, `to_value` returns exactly the result of one call to
the registered factory's `batch n kwargs`, and performs no `build` call. -/
theorem fixture_batch_on_positive_size (reg : Registry) (fx : Fixture) (factory : Factory)
    (n : Int) (hreg : reg fx.fixture.value = some factory)
    (hsize : fx.size = some n) (hn : 0 < n) :
    (Fixture.to_value reg fx).result = factory.batch n fx.kwargs
    ∧ (Fixture.to_value reg fx).events = [CallEvent.callBatch n fx.kwargs] := by
  have hne : n ≠ 0 := ne_of_gt hn
  unfold Fixture.to_value
  rw [hreg, hsize]
  simp [hne]

/-- Witness for C2 at a concrete registered fixture with `size = 5`. -/
theorem fixture_batch_on_positive_size_witness :
    (Fixture.to_value sampleReg (Fixture.init 1 (some 5) []).1).result
        = sampleFactory.batch 5 []
    ∧ (Fixture.to_value sampleReg (Fixture.init 1 (some 5) []).1).events
        = [CallEvent.callBatch 5 []] :=
  fixture_batch_on_positive_size sampleReg (Fixture.init 1 (some 5) []).1 sampleFactory 5
    rfl rfl (by decide)

/-- C3: for every `Fixture` whose identity is registered and whose `size` is
unset (`None`), `to_value` returns exactly the result of one call to the
registered factory's `build kwargs`, and performs no `batch` call. -/
theorem fixture_build_on_unset_size (reg : Registry) (fx : Fixture) (factory : Factory)
    (hreg : reg fx.fixture.value = some factory) (hsize : fx.size = none) :
    (Fixture.to_value reg fx).result = factory.build fx.kwargs
    ∧ (Fixture.to_value reg fx).events = [CallEvent.callBuild fx.kwargs] := by
  unfold Fixture.to_value
  rw [hreg, hsize]
  exact ⟨rfl, rfl⟩

/-- Witness for C3 at a concrete registered fixture with `size = None`. -/
theorem fixture_build_on_unset_size_witness :
    (Fixture.to_value sampleReg (Fixture.init 1 none []).1).result
        = sampleFactory.build []
    ∧ (Fixture.to_value sampleReg (Fixture.init 1 none []).1).events
        = [CallEvent.callBuild []] :=
  fixture_build_on_unset_size sampleReg (Fixture.init 1 none []).1 sampleFactory rfl rfl

/-- C4: `Use.to_value` returns the stored callable applied to the stored
args and kwargs, and calling it twice invokes the callable twice (no
memoization). -/
theorem use_resolve_applies_callable (u : Use) :
    (u.to_value).result = u.fn.value u.args u.kwargs
    ∧ u.resolveTwice
        = [CallEvent.callFn u.args u.kwargs, CallEvent.callFn u.args u.kwargs] :=
  ⟨rfl, rfl⟩

/-- C5: `PostGenerated.to_value name values` returns the stored callable
applied to `(name, values, *args, **kwargs)`, for every field name and
resolved-values mapping. -/
theorem postgenerated_resolve_applies_callable (pg : PostGenerated) (name : String)
    (values : ValMap) :
    (pg.to_value name values).result = pg.fn.value name values pg.args pg.kwargs
    ∧ (pg.to_value name values).events
        = [CallEvent.callPostFn name values pg.args pg.kwargs] :=
  ⟨rfl, rfl⟩

/-- C6: constructing a `Use` or a `PostGenerated` stores the callable, args
and kwargs verbatim and performs no call at all (no invocation of the
callable, no side effects). -/
theorem init_stores_verbatim_no_calls (f : Fn) (pf : PostFn) (a : Args) (k : Kwargs) :
    ((Use.init f a k).1.fn.value = f ∧ (Use.init f a k).1.args = a
      ∧ (Use.init f a k).1.kwargs = k ∧ (Use.init f a k).2 = [])
    ∧ ((PostGenerated.init pf a k).1.fn.value = pf
      ∧ (PostGenerated.init pf a k).1.args = a
      ∧ (PostGenerated.init pf a k).1.kwargs = k
      ∧ (PostGenerated.init pf a k).2 = []) :=
  ⟨⟨rfl, rfl, rfl, rfl⟩, ⟨rfl, rfl, rfl, rfl⟩⟩

/-- C7: any error raised by the wrapped callable of a `Use` or a
`PostGenerated`, or by the delegated factory's `build`/`batch` call of a
registered `Fixture`, propagates out of `to_value` unmodified. -/
theorem resolve_errors_propagate_unmodified (u : Use) (pg : PostGenerated) (name : String)
    (values : ValMap) (reg : Registry) (fx : Fixture) (factory : Factory) (e : Err)
    (hu : u.fn.value u.args u.kwargs = Except.error e)
    (hp : pg.fn.value name values pg.args pg.kwargs = Except.error e)
    (hreg : reg fx.fixture.value = some factory)
    (hd : delegatedCall factory fx = Except.error e) :
    (u.to_value).result = Except.error e
    ∧ (pg.to_value name values).result = Except.error e
    ∧ (Fixture.to_value reg fx).result = Except.error e := by
  refine ⟨hu, hp, ?_⟩
  rw [fixture_registered_result reg fx factory hreg]
  exact hd

/-- Witness for C7 at concrete always-raising callables and factory. -/
theorem resolve_errors_propagate_unmodified_witness :
    ((Use.init errFn [] []).1.to_value).result = Except.error (Err.userError 7)
    ∧ ((PostGenerated.init errPostFn [] []).1.to_value "y" []).result
        = Except.error (Err.userError 7)
    ∧ (Fixture.to_value errReg (Fixture.init 0 none []).1).result
        = Except.error (Err.userError 7) :=
  resolve_errors_propagate_unmodified (Use.init errFn [] []).1
    (PostGenerated.init errPostFn [] []).1 "y" [] errReg (Fixture.init 0 none []).1
    errFactory (Err.userError 7) rfl rfl rfl rfl

/-- C8: `to_value` leaves every stored field of the descriptor unchanged:
the post-call state of `self` equals the descriptor as constructed, for all
three descriptor kinds. -/
theorem resolve_preserves_configuration (u : Use) (pg : PostGenerated) (name : String)
    (values : ValMap) (reg : Registry) (fx : Fixture) :
    (u.to_value).state = u ∧ (pg.to_value name values).state = pg
    ∧ (Fixture.to_value reg fx).state = fx := by
  refine ⟨rfl, rfl, ?_⟩
  unfold Fixture.to_value
  cases reg fx.fixture.value with
  | none => rfl
  | some factory =>
    cases fx.size with
    | none => rfl
    | some n => by_cases h : n = 0 <;> simp [h]

/-- C9: for a registered `Fixture` with `size = some 0`, `to_value` invokes
`build`, not `batch` (the batch branch needs a truthy size), and the result
and the calls performed coincide with those of the same fixture with
`size = None`. -/
theorem fixture_size_zero_uses_build (reg : Registry) (fx : Fixture) (factory : Factory)
    (hreg : reg fx.fixture.value = some factory) (hsize : fx.size = some 0) :
    (Fixture.to_value reg fx).result = factory.build fx.kwargs
    ∧ (Fixture.to_value reg fx).events = [CallEvent.callBuild fx.kwargs]
    ∧ (Fixture.to_value reg fx).result
        = (Fixture.to_value reg
            { fixture := fx.fixture, size := none, kwargs := fx.kwargs }).result
    ∧ (Fixture.to_value reg fx).events
        = (Fixture.to_value reg
            { fixture := fx.fixture, size := none, kwargs := fx.kwargs }).events := by
  unfold Fixture.to_value
  rw [hsize]
  simp only [hreg]
  exact ⟨rfl, rfl, rfl, rfl⟩

/-- Witness for C9 at a concrete registered fixture with `size = some 0`. -/
theorem fixture_size_zero_uses_build_witness :
    (Fixture.to_value sampleReg (Fixture.init 1 (some 0) []).1).result
        = sampleFactory.build []
    ∧ (Fixture.to_value sampleReg (Fixture.init 1 (some 0) []).1).events
        = [CallEvent.callBuild []]
    ∧ (Fixture.to_value sampleReg (Fixture.init 1 (some 0) []).1).result
        = (Fixture.to_value sampleReg (Fixture.init 1 none []).1).result
    ∧ (Fixture.to_value sampleReg (Fixture.init 1 (some 0) []).1).events
        = (Fixture.to_value sampleReg (Fixture.init 1 none []).1).events :=
  fixture_size_zero_uses_build sampleReg (Fixture.init 1 (some 0) []).1 sampleFactory
    rfl rfl

/-- C10: `to_value` produces the core-originated `ParameterError` outcome
exactly when the identity is absent from the registry; when the identity is
registered the result is exactly the delegated call's result (so the core
itself never errors on any `size`), and any truthy size — a negative one
included — is forwarded to `batch` unchanged. -/
theorem fixture_parameter_error_iff_unregistered (reg : Registry) (fx : Fixture) :
    (reg fx.fixture.value = none ↔
      Fixture.to_value reg fx =
        { state := fx
          result := Except.error (Err.parameterError registrationErrorMsg)
          events := [] })
    ∧ (∀ factory, reg fx.fixture.value = some factory →
        (Fixture.to_value reg fx).result = delegatedCall factory fx)
    ∧ (∀ factory n, reg fx.fixture.value = some factory → fx.size = some n → n ≠ 0 →
        (Fixture.to_value reg fx).events = [CallEvent.callBatch n fx.kwargs]) := by
  refine ⟨⟨?_, ?_⟩, ?_, ?_⟩
  · intro h
    unfold Fixture.to_value
    rw [h]
  · intro h
    cases hr : reg fx.fixture.value with
    | none => rfl
    | some factory =>
      have he : (Fixture.to_value reg fx).events = [] := by rw [h]
      exact absurd he (fixture_registered_events_ne_nil reg fx factory hr)
  · intro factory hreg
    exact fixture_registered_result reg fx factory hreg
  · intro factory n hreg hsize hne
    unfold Fixture.to_value
    rw [hreg, hsize]
    simp [hne]

/-- Witness for C10: an unregistered fixture yields exactly the
`ParameterError` outcome, and a registered fixture with negative size `-3`
forwards `-3` to `batch` unchanged. -/
theorem fixture_parameter_error_iff_unregistered_witness :
    Fixture.to_value (fun _ => none) (Fixture.init 2 (some (-3)) []).1 =
      { state := (Fixture.init 2 (some (-3)) []).1
        result := Except.error (Err.parameterError registrationErrorMsg)
        events := [] }
    ∧ (Fixture.to_value errReg (Fixture.init 2 (some (-3)) []).1).events
        = [CallEvent.callBatch (-3) []] :=
  ⟨((fixture_parameter_error_iff_unregistered (fun _ => none)
      (Fixture.init 2 (some (-3)) []).1).1).mp rfl,
   (fixture_parameter_error_iff_unregistered errReg
      (Fixture.init 2 (some (-3)) []).1).2.2 errFactory (-3) rfl rfl (by decide)⟩

end Polyfactory
